import Mathlib

/-!
Shallow embedding of `src/functions.py`: a web-search/aggregation script with
three functions, `fetch_google_results`, `fetch_webpage_content` and
`fetch_and_combine_contents`.  External services (the googlesearch provider,
the HTTP client `requests`, the HTML parser BeautifulSoup) are modelled as an
explicit environment record; logging is modelled as a list of emitted events.
Exceptions are modelled with `Except`.
-/

/-- Severity levels of the Python `logging` module used by the script. -/
inductive LogLevel where
  | info
  | warning
  | error
  deriving DecidableEq, Repr

/-- The log messages the script can emit, one constructor per `logging.*`
call site in `src/functions.py`, carrying the interpolated argument. -/
inductive LogEvent where
  | searchSuccess (query : String)
  | searchError (query : String)
  | fetchSuccess (url : String)
  | fetchError (url : String)
  | parseSuccess (url : String)
  | parseError (url : String)
  | noContent (url : String)
  | noContentWarning
  deriving DecidableEq, Repr

/-- Level each log call site uses (`logging.info` / `.error` / `.warning`). -/
def LogEvent.level : LogEvent → LogLevel
  | .searchSuccess _ => .info
  | .searchError _ => .error
  | .fetchSuccess _ => .info
  | .fetchError _ => .error
  | .parseSuccess _ => .info
  | .parseError _ => .error
  | .noContent _ => .info
  | .noContentWarning => .warning

/-- Outcome of one `requests.get(url)` call followed by `raise_for_status`
inspection is driven by this oracle: either the client raises a transport-level
exception (`requests.RequestException` or `ValueError`), or it returns a
response with a status code and a body text. -/
inductive GetResult where
  | raises
  | response (status : Nat) (body : String)
  deriving DecidableEq, Repr

/-- Exceptions that can escape the embedded functions: Python `ValueError`
(carrying its message) or an arbitrary provider-side exception of type `ε`
re-raised by `fetch_google_results`. -/
inductive Err (ε : Type) where
  | valueError (msg : String)
  | provider (e : ε)
  deriving DecidableEq, Repr

/-- The external world: the search provider's ranked result stream (or a
provider-side exception), the HTTP client, and the HTML parser.  The parser
oracle returns the list of descendant text nodes of the parsed document, or
`none` when `BeautifulSoup` raises. -/
structure Env (ε : Type) where
  providerStream : String → Except ε (List String)
  get : String → GetResult
  parse : String → Option (List String)

instance {ε α : Type} [DecidableEq ε] [DecidableEq α] :
    DecidableEq (Except ε α) := fun a b =>
  match a, b with
  | .error e₁, .error e₂ =>
    if h : e₁ = e₂ then isTrue (by rw [h]) else isFalse (by intro hh; cases hh; exact h rfl)
  | .ok v₁, .ok v₂ =>
    if h : v₁ = v₂ then isTrue (by rw [h]) else isFalse (by intro hh; cases hh; exact h rfl)
  | .error _, .ok _ => isFalse (by intro hh; cases hh)
  | .ok _, .error _ => isFalse (by intro hh; cases hh)

/-- Model of Python `sep.join(parts)`. -/
def pyJoin (sep : String) : List String → String
  | [] => ""
  | [part] => part
  | part :: parts => part ++ sep ++ pyJoin sep parts

/-- Model of Python `str.strip()` with no argument: remove leading and
trailing whitespace characters, keeping interior whitespace. -/
def pyStrip (s : String) : String :=
  String.mk
    (((s.data.dropWhile Char.isWhitespace).reverse.dropWhile
        Char.isWhitespace).reverse)

/-- Model of BeautifulSoup `get_text(separator, strip=True)`: each descendant
text node is individually stripped of leading/trailing whitespace, empty
results are dropped, and the survivors are joined with the separator.
Whitespace inside a single text node is preserved. -/
def getTextStrip (sep : String) (nodes : List String) : String :=
  pyJoin sep ((nodes.map pyStrip).filter (fun s => s ≠ ""))

/-- Text nodes of an HTML string under a tag-stripping parse (model of
Python's `html.parser` backend for markup with no comments, scripts or
character entities): the maximal runs of characters outside `<...>` tags. -/
def splitNodes (s : String) : List String :=
  go s.data false []
where
  go : List Char → Bool → List Char → List String
  | [], _, acc => [String.mk acc.reverse]
  | c :: cs, false, acc =>
      if c = '<' then String.mk acc.reverse :: go cs true []
      else go cs false (c :: acc)
  | c :: cs, true, acc =>
      if c = '>' then go cs false acc else go cs true acc

/-- A `parse` oracle implementing `BeautifulSoup(body, "html.parser")` on
simple markup: it succeeds and yields the document's text nodes. -/
def htmlParser (body : String) : Option (List String) :=
  some (splitNodes body)

/-- Model of `googlesearch.search(query, num, stop, pause)`: the provider's
ranked result stream truncated to the first `stop` results, or the
provider-side exception. -/
def googlesearch (env : Env ε) (query : String) (stop : Nat) :
    Except ε (List String) :=
  (env.providerStream query).map (fun results => results.take stop)

/-- `fetch_google_results(query, num_results)` from `src/functions.py`
(lines 13–51): validate the arguments, call the provider, log, and either
return the result list or re-raise the provider's exception. -/
def fetch_google_results (env : Env ε) (query : String) (num_results : Int) :
    Except (Err ε) (List String) × List LogEvent :=
  if query = "" then
    (.error (.valueError "The search query must be a non-empty string."), [])
  else if num_results < 1 then
    (.error (.valueError "The number of results must be at least 1."), [])
  else
    match googlesearch env query num_results.toNat with
    | .error e => (.error (.provider e), [.searchError query])
    | .ok results => (.ok results, [.searchSuccess query])

/-- `fetch_webpage_content(url)` from `src/functions.py` (lines 54–94):
validate the URL, perform the GET (transport errors and 4xx/5xx statuses are
caught and yield `None`), then parse the body and extract text with
`get_text(separator=" ", strip=True)` (parser exceptions also yield `None`). -/
def fetch_webpage_content (env : Env ε) (url : String) :
    Except (Err ε) (Option String) × List LogEvent :=
  if url = "" then
    (.error (.valueError "The URL must be a non-empty string."), [])
  else
    match env.get url with
    | .raises => (.ok none, [.fetchError url])
    | .response status body =>
      if 400 ≤ status ∧ status < 600 then
        (.ok none, [.fetchError url])
      else
        match env.parse body with
        | none => (.ok none, [.fetchSuccess url, .parseError url])
        | some nodes =>
          (.ok (some (getTextStrip " " nodes)),
           [.fetchSuccess url, .parseSuccess url])

/-- The 25-character delimiter `'*' * 25` used by the aggregator. -/
def stars25 : String := String.mk (List.replicate 25 '*')

/-- The f-string block built for one successful fetch in
`fetch_and_combine_contents` (line 116):
`f"\n{'*'*25}Content from: {url}{'*'*25}\n{content}\n"`. -/
def contentBlock (url content : String) : String :=
  "\n" ++ stars25 ++ "Content from: " ++ url ++ stars25 ++ "\n" ++ content ++ "\n"

/-- The loop body of `fetch_and_combine_contents` (lines 111–118): walk the
URLs in order, fetch each, and collect a block for every truthy (non-`None`,
non-empty) content, accumulating the emitted log events; an exception raised
by `fetch_webpage_content` aborts the loop and propagates. -/
def collectBlocks (env : Env ε) : List String →
    Except (Err ε) (List String) × List LogEvent
  | [] => (.ok [], [])
  | url :: urls =>
    match fetch_webpage_content env url with
    | (.error e, lg) => (.error e, lg)
    | (.ok content, lg) =>
      let step : Option String × List LogEvent :=
        match content with
        | some c => if c = "" then (none, [.noContent url]) else (some (contentBlock url c), [])
        | none => (none, [.noContent url])
      let rest := collectBlocks env urls
      (rest.fst.map (fun blocks =>
          match step.fst with
          | some b => b :: blocks
          | none => blocks),
       lg ++ step.snd ++ rest.snd)

/-- `fetch_and_combine_contents(urls)` from `src/functions.py`
(lines 97–124): collect the blocks; if none were collected log a warning and
return `None`, otherwise return `" ".join(combined_content)`. -/
def fetch_and_combine_contents (env : Env ε) (urls : List String) :
    Except (Err ε) (Option String) × List LogEvent :=
  match collectBlocks env urls with
  | (.error e, lg) => (.error e, lg)
  | (.ok blocks, lg) =>
    if blocks = [] then (.ok none, lg ++ [.noContentWarning])
    else (.ok (some (pyJoin " " blocks)), lg)

/-! ## Spec-side definitions

These follow the wording of the specification (§4.3) rather than the code,
for the refinement comparison of the aggregator. -/

/-- From the spec: "a framing line containing the source URL flanked by a
fixed repeated-character delimiter (25 repetitions of `*` on each side around
the literal text `Content from: <url>`)". -/
def specFraming (url : String) : String :=
  String.mk (List.replicate 25 '*') ++ "Content from: " ++ url ++
    String.mk (List.replicate 25 '*')

/-- From the spec: the framing line, "followed by the page's text content,
followed by a blank line" (the block opens on a fresh line). -/
def specBlock (url content : String) : String :=
  "\n" ++ specFraming url ++ "\n" ++ content ++ "\n"

/-- From the spec: invoke the Page Fetcher on each URL in input order, format
a block for each non-absent (non-null, non-empty) result, keep blocks in
input order; if zero blocks were collected return Absent, otherwise join the
blocks with a single-space separator. -/
def specCombine (env : Env ε) (urls : List String) : Option String :=
  let blocks := urls.filterMap (fun u =>
    match (fetch_webpage_content env u).fst with
    | .ok (some c) => if c = "" then none else some (specBlock u c)
    | _ => none)
  if blocks = [] then none else some (pyJoin " " blocks)

/-! ## Helper lemmas -/

/-- The block produced on the success path of the loop, as a partial map:
`none` when the fetch result is absent or empty (Python falsy). -/
def blockOf (env : Env ε) (u : String) : Option String :=
  match (fetch_webpage_content env u).fst with
  | .ok (some c) => if c = "" then none else some (contentBlock u c)
  | _ => none

theorem fetch_ok_of_ne_empty (env : Env ε) (u : String) (h : u ≠ "") :
    ∃ r lg, fetch_webpage_content env u = (Except.ok r, lg) := by
  unfold fetch_webpage_content
  rw [if_neg h]
  cases env.get u with
  | raises => exact ⟨none, _, rfl⟩
  | response st body =>
    dsimp only
    by_cases hst : 400 ≤ st ∧ st < 600
    · rw [if_pos hst]
      exact ⟨none, _, rfl⟩
    · rw [if_neg hst]
      cases hp : env.parse body with
      | none => exact ⟨none, _, rfl⟩
      | some nodes => exact ⟨some (getTextStrip " " nodes), _, rfl⟩

theorem collectBlocks_fst (env : Env ε) (urls : List String)
    (h : ∀ u ∈ urls, u ≠ "") :
    (collectBlocks env urls).fst = Except.ok (urls.filterMap (blockOf env)) := by
  induction urls with
  | nil => rfl
  | cons u us ih =>
    have hu : u ≠ "" := h u (List.mem_cons_self u us)
    have hus : ∀ v ∈ us, v ≠ "" := fun v hv => h v (List.mem_cons_of_mem u hv)
    obtain ⟨r, lg, hfe⟩ := fetch_ok_of_ne_empty env u hu
    have hb : blockOf env u =
        match r with
        | some c => if c = "" then none else some (contentBlock u c)
        | none => none := by
      cases r <;> simp [blockOf, hfe]
    simp only [collectBlocks, hfe, ih hus, List.filterMap_cons, hb]
    cases r with
    | none => simp [Except.map]
    | some c =>
      by_cases hc : c = "" <;> simp [hc, Except.map]

theorem specBlock_eq_contentBlock (u c : String) :
    specBlock u c = contentBlock u c := by
  unfold specBlock contentBlock specFraming stars25
  simp only [String.append_assoc]

theorem pyJoin_split (l : List String) (b : String) (h : b ∈ l) :
    ∃ p q, pyJoin " " l = p ++ b ++ q := by
  induction l with
  | nil => cases h
  | cons x xs ih =>
    cases xs with
    | nil =>
      rcases List.mem_singleton.mp h with rfl
      exact ⟨"", "", by simp [pyJoin]⟩
    | cons y ys =>
      rcases List.mem_cons.mp h with rfl | hmem
      · exact ⟨"", " " ++ pyJoin " " (y :: ys), by simp [pyJoin, String.append_assoc]⟩
      · obtain ⟨p, q, hpq⟩ := ih hmem
        exact ⟨x ++ " " ++ p, q, by simp [pyJoin, hpq, String.append_assoc]⟩

theorem aggregate_fst (env : Env ε) (urls : List String)
    (h : ∀ u ∈ urls, u ≠ "") :
    (fetch_and_combine_contents env urls).fst =
      (if urls.filterMap (blockOf env) = [] then Except.ok none
       else Except.ok (some (pyJoin " " (urls.filterMap (blockOf env))))) := by
  unfold fetch_and_combine_contents
  rcases hc : collectBlocks env urls with ⟨r, lg⟩
  have hr := collectBlocks_fst env urls h
  rw [hc] at hr
  dsimp at hr
  subst hr
  by_cases hb : urls.filterMap (blockOf env) = [] <;> simp [hb]

theorem aggregate_warning_of_no_blocks (env : Env ε) (urls : List String)
    (h : ∀ u ∈ urls, u ≠ "") (hb : urls.filterMap (blockOf env) = []) :
    LogEvent.noContentWarning ∈ (fetch_and_combine_contents env urls).snd := by
  unfold fetch_and_combine_contents
  rcases hc : collectBlocks env urls with ⟨r, lg⟩
  have hr := collectBlocks_fst env urls h
  rw [hc] at hr
  dsimp at hr
  subst hr
  simp [hb]

theorem collectBlocks_error_of_empty_url (env : Env ε) (urls : List String)
    (h : "" ∈ urls) :
    (collectBlocks env urls).fst =
      Except.error (Err.valueError "The URL must be a non-empty string.") := by
  induction urls with
  | nil => cases h
  | cons u us ih =>
    by_cases hu : u = ""
    · subst hu
      have hfe : fetch_webpage_content env "" =
          (Except.error (Err.valueError "The URL must be a non-empty string."),
           ([] : List LogEvent)) := by
        unfold fetch_webpage_content
        rw [if_pos rfl]
      simp only [collectBlocks, hfe]
    · have hus : "" ∈ us := by
        rcases List.mem_cons.mp h with h1 | h2
        · exact absurd h1.symm hu
        · exact h2
      obtain ⟨r, lg, hfe⟩ := fetch_ok_of_ne_empty env u hu
      simp only [collectBlocks, hfe]
      simp [ih hus, Except.map]

/-! ## Concrete environments used by the witnesses -/

/-- A concrete world: `u1` serves HTTP 200 with a small HTML body, `u2`
serves HTTP 500, every other URL raises a transport error; the provider
raises on query `err` and returns three ranked results otherwise. -/
def envW : Env Unit := {
  providerStream := fun q =>
    if q = "err" then Except.error () else Except.ok ["r1", "r2", "r3"],
  get := fun u =>
    if u = "u1" then GetResult.response 200 "<p>Hello  World</p>"
    else if u = "u2" then GetResult.response 500 "oops"
    else GetResult.raises,
  parse := htmlParser
}

/-- A second world with the same HTTP and parser behavior as `envW` but a
different search provider. -/
def envW2 : Env Unit := {
  providerStream := fun _ => Except.error (),
  get := envW.get,
  parse := envW.parse
}

/-! ## Claims -/

/-- **C1**: for every non-empty URL, when the GET raises a transport error,
the response has a 4xx/5xx status, or HTML parsing fails,
`fetch_webpage_content` returns `None` (no exception escapes to the caller)
after logging an error-level event. -/
theorem fetch_lenient_failure (env : Env ε) (url : String) (h : url ≠ "")
    (hfail : env.get url = .raises ∨
      (∃ st body, env.get url = .response st body ∧ 400 ≤ st ∧ st < 600) ∨
      (∃ st body, env.get url = .response st body ∧ ¬(400 ≤ st ∧ st < 600) ∧
        env.parse body = none)) :
    (fetch_webpage_content env url).fst = Except.ok none ∧
    ∃ ev ∈ (fetch_webpage_content env url).snd, ev.level = LogLevel.error := by
  unfold fetch_webpage_content
  rw [if_neg h]
  rcases hfail with hg | ⟨st, body, hg, hst⟩ | ⟨st, body, hg, hst, hp⟩
  · rw [hg]
    exact ⟨rfl, LogEvent.fetchError url, by simp, rfl⟩
  · rw [hg]
    dsimp only
    rw [if_pos hst]
    exact ⟨rfl, LogEvent.fetchError url, by simp, rfl⟩
  · rw [hg]
    dsimp only
    rw [if_neg hst, hp]
    exact ⟨rfl, LogEvent.parseError url, by simp, rfl⟩

/-- Witness for C1 at the transport-error URL `u3` of `envW`. -/
theorem fetch_lenient_failure_witness :
    (fetch_webpage_content envW "u3").fst = Except.ok none ∧
    ∃ ev ∈ (fetch_webpage_content envW "u3").snd, ev.level = LogLevel.error :=
  fetch_lenient_failure envW "u3" (by decide) (Or.inl rfl)

/-- **C4**: `fetch_google_results` with an empty query or `num_results < 1`,
and `fetch_webpage_content` with an empty URL, return a `ValueError`
exception with an empty log — before any provider or HTTP interaction, for
every environment — and the error is never swallowed. -/
theorem invalid_argument_checks (env : Env ε) (q : String) (n : Int) :
    (q = "" →
      fetch_google_results env q n =
        (Except.error (Err.valueError "The search query must be a non-empty string."), [])) ∧
    (q ≠ "" → n < 1 →
      fetch_google_results env q n =
        (Except.error (Err.valueError "The number of results must be at least 1."), [])) ∧
    fetch_webpage_content env "" =
      (Except.error (Err.valueError "The URL must be a non-empty string."), []) := by
  refine ⟨?_, ?_, ?_⟩
  · intro hq
    unfold fetch_google_results
    rw [if_pos hq]
  · intro hq hn
    unfold fetch_google_results
    rw [if_neg hq, if_pos hn]
  · unfold fetch_webpage_content
    rw [if_pos rfl]

/-- Witness for C4: empty query, zero count, empty URL against `envW`. -/
theorem invalid_argument_checks_witness :
    fetch_google_results envW "" 5 =
      (Except.error (Err.valueError "The search query must be a non-empty string."), []) ∧
    fetch_google_results envW "q" 0 =
      (Except.error (Err.valueError "The number of results must be at least 1."), []) ∧
    fetch_webpage_content envW "" =
      (Except.error (Err.valueError "The URL must be a non-empty string."), []) :=
  ⟨(invalid_argument_checks envW "" 5).1 rfl,
   (invalid_argument_checks envW "q" 0).2.1 (by decide) (by decide),
   (invalid_argument_checks envW "q" 0).2.2⟩

/-- **C6**: for every valid query and count, a provider-side exception `e`
propagates to the caller, tagged as the provider error and carrying `e`
unchanged, after a single provider interaction (one error log, no retry). -/
theorem search_error_propagates (env : Env ε) (q : String) (n : Int) (e : ε)
    (hq : q ≠ "") (hn : 1 ≤ n) (he : env.providerStream q = Except.error e) :
    fetch_google_results env q n =
      (Except.error (Err.provider e), [LogEvent.searchError q]) ∧
    LogEvent.level (LogEvent.searchError q) = LogLevel.error := by
  constructor
  · unfold fetch_google_results googlesearch
    rw [if_neg hq, if_neg (by omega : ¬n < 1), he]
    rfl
  · rfl

/-- Witness for C6 at `envW`'s failing query `err`. -/
theorem search_error_propagates_witness :
    fetch_google_results envW "err" 3 =
      (Except.error (Err.provider ()), [LogEvent.searchError "err"]) ∧
    LogEvent.level (LogEvent.searchError "err") = LogLevel.error :=
  search_error_propagates envW "err" 3 () (by decide) (by decide) rfl

/-- **C7**: for every non-empty query and count ≥ 1, when the provider
returns the ranked stream `l`, `fetch_google_results` returns the first
`n` elements of `l` unchanged: at most `n` URLs, a prefix of the provider's
order (no deduplication, no re-ranking). -/
theorem search_results_order (env : Env ε) (q : String) (n : Int)
    (l : List String) (hq : q ≠ "") (hn : 1 ≤ n)
    (hl : env.providerStream q = Except.ok l) :
    (fetch_google_results env q n).fst = Except.ok (l.take n.toNat) ∧
    ((l.take n.toNat).length : Int) ≤ n ∧
    ∃ rest, l = l.take n.toNat ++ rest := by
  refine ⟨?_, ?_, ⟨l.drop n.toNat, (List.take_append_drop _ _).symm⟩⟩
  · unfold fetch_google_results googlesearch
    rw [if_neg hq, if_neg (by omega : ¬n < 1), hl]
    rfl
  · have h1 := List.length_take n.toNat l
    omega

/-- Witness for C7: `envW`'s provider returns three results, two requested. -/
theorem search_results_order_witness :
    (fetch_google_results envW "q" 2).fst =
      Except.ok (["r1", "r2", "r3"].take (2 : Int).toNat) ∧
    (((["r1", "r2", "r3"] : List String).take (2 : Int).toNat).length : Int) ≤ 2 ∧
    ∃ rest, ["r1", "r2", "r3"] = (["r1", "r2", "r3"] : List String).take (2 : Int).toNat ++ rest :=
  search_results_order envW "q" 2 ["r1", "r2", "r3"] (by decide) (by decide) rfl

/-- **C9**: `fetch_webpage_content` is a pure function of its URL and the
external responses: two calls in worlds whose HTTP and parser behavior
agree on that URL return identical results (content and logs) — there is no
cross-call state. -/
theorem fetch_pure (env₁ env₂ : Env ε) (url : String)
    (hget : env₁.get url = env₂.get url)
    (hparse : ∀ b, env₁.parse b = env₂.parse b) :
    fetch_webpage_content env₁ url = fetch_webpage_content env₂ url := by
  unfold fetch_webpage_content
  by_cases h : url = ""
  · rw [if_pos h, if_pos h]
  · rw [if_neg h, if_neg h, hget]
    cases env₂.get url with
    | raises => rfl
    | response st body =>
      dsimp only
      by_cases hst : 400 ≤ st ∧ st < 600
      · rw [if_pos hst, if_pos hst]
      · rw [if_neg hst, if_neg hst, hparse body]

/-- Witness for C9: `envW` and `envW2` serve `u1` identically. -/
theorem fetch_pure_witness :
    fetch_webpage_content envW "u1" = fetch_webpage_content envW2 "u1" :=
  fetch_pure envW envW2 "u1" rfl (fun _ => rfl)

/-- **C10**: for every URL list containing the empty string,
`fetch_and_combine_contents` propagates the `ValueError` raised by the
nested `fetch_webpage_content` and returns no combined document: the empty
URL is not skipped, and content collected from earlier URLs is discarded. -/
theorem aggregate_empty_url_raises (env : Env ε) (urls : List String)
    (h : "" ∈ urls) :
    (fetch_and_combine_contents env urls).fst =
      Except.error (Err.valueError "The URL must be a non-empty string.") := by
  unfold fetch_and_combine_contents
  rcases hc : collectBlocks env urls with ⟨r, lg⟩
  have herr := collectBlocks_error_of_empty_url env urls h
  rw [hc] at herr
  dsimp at herr
  subst herr
  rfl

/-- Witness for C10: a successful URL followed by the empty URL. -/
theorem aggregate_empty_url_raises_witness :
    (fetch_and_combine_contents envW ["u1", ""]).fst =
      Except.error (Err.valueError "The URL must be a non-empty string.") :=
  aggregate_empty_url_raises envW ["u1", ""] (by decide)

theorem specCombine_eq (env : Env ε) (urls : List String) :
    specCombine env urls =
      (if urls.filterMap (blockOf env) = [] then none
       else some (pyJoin " " (urls.filterMap (blockOf env)))) := by
  have hfun : (fun u =>
      match (fetch_webpage_content env u).fst with
      | Except.ok (some c) => if c = "" then none else some (specBlock u c)
      | _ => none) = blockOf env := by
    funext u
    unfold blockOf
    cases (fetch_webpage_content env u).fst with
    | error e => rfl
    | ok content =>
      cases content with
      | none => rfl
      | some c => simp [specBlock_eq_contentBlock]
  simp only [specCombine]
  rw [hfun]

/-- **C2**: for every list of non-empty URLs, the aggregator returns exactly
the spec-side document: one block per URL with non-absent (non-null,
non-empty) content, in input order, each block a framing line of 25 `*` on
each side of `Content from: <url>` followed by the content and a trailing
newline, all blocks joined by a single space; failed URLs contribute
nothing. -/
theorem aggregate_spec_refinement (env : Env ε) (urls : List String)
    (h : ∀ u ∈ urls, u ≠ "") :
    (fetch_and_combine_contents env urls).fst = Except.ok (specCombine env urls) ∧
    ∀ u c, specBlock u c =
      "\n" ++ String.mk (List.replicate 25 '*') ++ "Content from: " ++ u ++
        String.mk (List.replicate 25 '*') ++ "\n" ++ c ++ "\n" := by
  constructor
  · rw [aggregate_fst env urls h, specCombine_eq]
    by_cases hb : urls.filterMap (blockOf env) = [] <;> simp [hb]
  · intro u c
    unfold specBlock specFraming
    simp only [String.append_assoc]

/-- Witness for C2: one succeeding URL and one failing URL of `envW`. -/
theorem aggregate_spec_refinement_witness :
    (∀ u ∈ ["u1", "u2"], u ≠ "") ∧
    (fetch_and_combine_contents envW ["u1", "u2"]).fst =
      Except.ok (specCombine envW ["u1", "u2"]) :=
  ⟨by decide, (aggregate_spec_refinement envW ["u1", "u2"] (by decide)).1⟩

/-- **C3**: the aggregator returns `None` (and not an exception) whenever
every fetch fails — including the empty URL list — and logs a warning-level
event. -/
theorem aggregate_absent_when_all_fail (env : Env ε) (urls : List String)
    (h : ∀ u ∈ urls, u ≠ "" ∧
      ((fetch_webpage_content env u).fst = Except.ok none ∨
       (fetch_webpage_content env u).fst = Except.ok (some ""))) :
    (fetch_and_combine_contents env urls).fst = Except.ok none ∧
    LogEvent.noContentWarning ∈ (fetch_and_combine_contents env urls).snd ∧
    LogEvent.level LogEvent.noContentWarning = LogLevel.warning := by
  have hne : ∀ u ∈ urls, u ≠ "" := fun u hu => (h u hu).1
  have hb : urls.filterMap (blockOf env) = [] := by
    rw [List.filterMap_eq_nil_iff]
    intro u hu
    rcases (h u hu).2 with h1 | h1 <;> simp [blockOf, h1]
  refine ⟨?_, aggregate_warning_of_no_blocks env urls hne hb, rfl⟩
  rw [aggregate_fst env urls hne, if_pos hb]

/-- Witness for C3: both URLs fail (HTTP 500 and a transport error). -/
theorem aggregate_absent_when_all_fail_witness :
    (fetch_and_combine_contents envW ["u2", "u3"]).fst = Except.ok none ∧
    LogEvent.noContentWarning ∈ (fetch_and_combine_contents envW ["u2", "u3"]).snd ∧
    LogEvent.level LogEvent.noContentWarning = LogLevel.warning :=
  aggregate_absent_when_all_fail envW ["u2", "u3"] (by decide)

/-- **C5, counterexample**: against an endpoint returning HTTP 200 with body
`<p>Hello  World</p>`, `fetch_webpage_content` returns `"Hello  World"` —
the two spaces inside the text node are preserved — not the claimed
whitespace-collapsed `"Hello World"`. -/
theorem fetch_whitespace_counterexample :
    (fetch_webpage_content envW "u1").fst = Except.ok (some "Hello  World") ∧
    ("Hello  World" : String) ≠ "Hello World" := by
  constructor
  · rfl
  · decide

/-- **C5, amended**: a fetch of a 200 response returns the body's text with
markup removed, each text node trimmed of leading/trailing whitespace, and
text nodes joined with single spaces; whitespace inside one text node is
preserved, so body `<p>Hello  World</p>` yields `"Hello  World"`. -/
theorem fetch_extracts_text (env : Env ε) (url : String) (h : url ≠ "")
    (st : Nat) (body : String) (hget : env.get url = .response st body)
    (hst : st < 400 ∨ 600 ≤ st) (hp : env.parse body = some (splitNodes body)) :
    (fetch_webpage_content env url).fst =
      Except.ok (some (getTextStrip " " (splitNodes body))) ∧
    getTextStrip " " (splitNodes "<p>Hello  World</p>") = "Hello  World" := by
  constructor
  · unfold fetch_webpage_content
    rw [if_neg h, hget]
    dsimp only
    rw [if_neg (by omega : ¬(400 ≤ st ∧ st < 600)), hp]
  · rfl

/-- Witness for the amended C5 at `envW`'s URL `u1`. -/
theorem fetch_extracts_text_witness :
    (fetch_webpage_content envW "u1").fst =
      Except.ok (some (getTextStrip " " (splitNodes "<p>Hello  World</p>"))) ∧
    getTextStrip " " (splitNodes "<p>Hello  World</p>") = "Hello  World" :=
  fetch_extracts_text envW "u1" (by decide) 200 "<p>Hello  World</p>" rfl
    (Or.inl (by decide)) rfl

/-- **C8**: every URL whose fetch succeeds with non-absent (non-null,
non-empty) content contributes its full block to the combined document: the
block appears verbatim, untruncated, as a segment of the output. -/
theorem aggregate_includes_every_success (env : Env ε) (urls : List String)
    (u : String) (c : String) (hne : ∀ v ∈ urls, v ≠ "") (hu : u ∈ urls)
    (hf : (fetch_webpage_content env u).fst = Except.ok (some c)) (hc : c ≠ "") :
    ∃ doc p q,
      (fetch_and_combine_contents env urls).fst = Except.ok (some doc) ∧
      doc = p ++ contentBlock u c ++ q := by
  have hb : blockOf env u = some (contentBlock u c) := by
    simp [blockOf, hf, hc]
  have hmem : contentBlock u c ∈ urls.filterMap (blockOf env) :=
    List.mem_filterMap.mpr ⟨u, hu, hb⟩
  have hnil : urls.filterMap (blockOf env) ≠ [] := by
    intro h0
    rw [h0] at hmem
    cases hmem
  obtain ⟨p, q, hpq⟩ := pyJoin_split _ _ hmem
  refine ⟨pyJoin " " (urls.filterMap (blockOf env)), p, q, ?_, hpq⟩
  rw [aggregate_fst env urls hne, if_neg hnil]

/-- Witness for C8: `u1`'s block appears in the combined document. -/
theorem aggregate_includes_every_success_witness :
    ∃ doc p q,
      (fetch_and_combine_contents envW ["u1", "u2"]).fst = Except.ok (some doc) ∧
      doc = p ++ contentBlock "u1" "Hello  World" ++ q :=
  aggregate_includes_every_success envW ["u1", "u2"] "u1" "Hello  World"
    (by decide) (by decide) (by decide) (by decide)
